import Mathlib
/-!
# Verification of the itandi BB rent-researcher scripts

A shallow embedding of the `itandi_search` Python package
(`auth.py`, `search.py`, `run.py`, `discord.py`, `sheets.py`, `models.py`,
`config.py`) together with theorems settling claims about its
natural-language specification.

Conventions of the embedding:
* Python strings are Lean `String`s; character-level work happens on
  `List Char`.
* Python `float` values arising from parsing decimal text are modelled
  exactly as `mant / 10 ^ exp` pairs (`DecNum`); the decimal literals
  exercised by the claims (e.g. `"3.5"`, `"25.5"`) are exactly representable
  as IEEE doubles, so no rounding discrepancy is observable in any statement
  below.
* Python code that can raise is modelled with `Except`, with `.error`
  standing for a raised exception.
* JSON values are modelled by the inductive `JVal`; a JSON object body is a
  `List (String × JVal)` association list (first binding wins, as Python
  `dict` keys are unique).
-/

/-- Kinds of Python exceptions distinguished by the scripts:
`ItandiAuthError` (auth.py), `ItandiSearchError` (search.py), and any other
`Exception` subclass.  Both custom errors derive directly from `Exception`,
so an `except ItandiSearchError` clause does *not* catch `ItandiAuthError`. -/
inductive PyExcKind where
  | itandiAuth
  | itandiSearch
  | other
deriving DecidableEq, Repr

/-! ## JSON values -/
/-- A JSON value as produced by `json.loads`. Numeric fields that the scripts
consume (`property_id`, `id`, `prefecture_id`, status codes) are integers. -/
inductive JVal where
  | null
  | bool (b : Bool)
  | num (n : Int)
  | str (s : String)
  | arr (xs : List JVal)
  | obj (kvs : List (String × JVal))

/-- Python truthiness of a JSON value (`bool(v)`). -/
def jTruthy : JVal → Bool
  | .null => false
  | .bool b => b
  | .num n => n != 0
  | .str s => s ≠ ""
  | .arr xs => !xs.isEmpty
  | .obj kvs => !kvs.isEmpty

/-- `d.get(k, default)` on a JSON object represented as an association list. -/
def jGetD : List (String × JVal) → String → JVal → JVal
  | [], _, d => d
  | (k', v) :: rest, k, d => if k' = k then v else jGetD rest k d

/-- `d[k]` on a JSON object: `none` models a raised `KeyError`. -/
def jIndex : List (String × JVal) → String → Option JVal
  | [], _ => none
  | (k', v) :: rest, k => if k' = k then some v else jIndex rest k

/-- Python `a or b`: the first operand if truthy, otherwise the second. -/
def pyOr (a b : JVal) : JVal := if jTruthy a then a else b

/-- Python `v == s` where `s` is a `str`: true exactly when `v` is an equal
string (comparing a string with any other type yields `False`). -/
def jStrEq (v : JVal) (s : String) : Bool :=
  match v with
  | .str t => t = s
  | _ => false

/-- Python `v == n` where `n` is an `int` (`True` for an equal number, and
for `bool` values, since `True == 1` in Python). -/
def jNumEq (v : JVal) (n : Int) : Bool :=
  match v with
  | .num m => m = n
  | .bool b => (if b then (1 : Int) else 0) = n
  | _ => false

/-- Python `str(v)`.  The container renderings are abbreviated: no claim
evaluates `str` on a list or dict, only on strings and numbers. -/
def pyStr : JVal → String
  | .null => "None"
  | .bool b => if b then "True" else "False"
  | .num n => toString n
  | .str s => s
  | .arr _ => "<list>"
  | .obj _ => "<dict>"

/-! ## Character-level helpers (`search.py` text parsing) -/
/-- A character matched by the regex class `[\d.]`. -/
def isNumDot (c : Char) : Bool := c.isDigit || c = '.'

/-- Whitespace for both `str.strip()` and the regex class `\s` (the ASCII
whitespace characters; the Unicode extras never appear in the claims). -/
def isPySpace (c : Char) : Bool := c.isWhitespace

/-- `str.strip()` on a character list. -/
def stripWs (cs : List Char) : List Char :=
  ((cs.dropWhile isPySpace).reverse.dropWhile isPySpace).reverse

/-- Value of a digit list read in base 10 (empty list reads as 0). -/
def digitsVal (cs : List Char) : Nat :=
  cs.foldl (fun acc c => 10 * acc + (c.toNat - '0'.toNat)) 0

/-- A nonnegative decimal number, denoting `mant / 10 ^ exp`.  This is the
exact value of `float(token)` for the decimal tokens the scripts extract
(all exercised literals are exactly representable as IEEE doubles). -/
structure DecNum where
  mant : Nat
  exp : Nat
deriving DecidableEq, Repr

/-- Python `float(token)` for a token drawn from the regex class `[\d.]+`:
defined exactly when the token has at least one digit and at most one dot
(`float(".")` and `float("1.2.3")` raise `ValueError`).  The value is the
exact decimal denoted by the token. -/
def pyFloatOfToken (cs : List Char) : Option DecNum :=
  if cs.any Char.isDigit && cs.countP (· = '.') ≤ 1 then
    let intPart := cs.takeWhile (· ≠ '.')
    let fracPart := (cs.dropWhile (· ≠ '.')).drop 1
    some ⟨digitsVal intPart * 10 ^ fracPart.length + digitsVal fracPart,
          fracPart.length⟩
  else none

/-- Python `int(d * scale)` for a nonnegative decimal `d`: truncation
toward zero, which on nonnegative values is floor division. -/
def intOfFloatScaled (d : DecNum) (scale : Nat) : Int :=
  ((d.mant * scale) / 10 ^ d.exp : Nat)

/-- Python `int(d)` for a nonnegative decimal `d`. -/
def intOfFloat (d : DecNum) : Int := (d.mant / 10 ^ d.exp : Nat)

/-- `re.search(r"([\d.]+)\s*万", text)`: the leftmost position carrying a
(maximal) run of `[\d.]` characters that is followed, after optional
whitespace, by `'万'`; returns group 1 (the run).  Backtracking to a shorter
run can never help, because the character after a shortened run is again in
`[\d.]`, which matches neither `\s` nor `万`. -/
def searchManGroup : List Char → Option (List Char)
  | [] => none
  | c :: cs =>
    if isNumDot c then
      let run := c :: cs.takeWhile isNumDot
      let rest := (cs.dropWhile isNumDot).dropWhile isPySpace
      match rest with
      | '万' :: _ => some run
      | _ => searchManGroup cs
    else searchManGroup cs

/-- `re.search(r"[\d.]+", text)`: the leftmost maximal run of `[\d.]`. -/
def searchNumRun : List Char → Option (List Char)
  | [] => none
  | c :: cs =>
    if isNumDot c then some (c :: cs.takeWhile isNumDot)
    else searchNumRun cs

/-- `re.search(r"([\d.]+)", text)` for `_parse_area_text` — same leftmost
maximal run as `searchNumRun`. -/
def searchAreaGroup (cs : List Char) : Option (List Char) := searchNumRun cs

/-- `_parse_price_text` (search.py).  `text.replace(",", "")` and
`.replace("円", "")` are single-character deletions, hence filters; `.strip()`
is `stripWs`.  `.error ()` models a raised `ValueError`. -/
def parse_price_text (text : String) : Except Unit Int :=
  if text = "" || text = "-" || text = "なし" || text = "ー" || text = "—" then
    .ok 0
  else
    let t := stripWs ((text.data.filter (· ≠ ',')).filter (· ≠ '円'))
    match searchManGroup t with
    | some g =>
      match pyFloatOfToken g with
      | some d => .ok (intOfFloatScaled d 10000)
      | none => .error ()
    | none =>
      match searchNumRun t with
      | some g =>
        match pyFloatOfToken g with
        | some d => .ok (intOfFloat d)
        | none => .error ()
      | none => .ok 0

/-- `_parse_area_text` (search.py). -/
def parse_area_text (text : String) : Except Unit DecNum :=
  if text = "" then .ok ⟨0, 0⟩
  else
    match searchAreaGroup text.data with
    | some g =>
      match pyFloatOfToken g with
      | some d => .ok d
      | none => .error ()
    | none => .ok ⟨0, 0⟩

/-! ## `auth.py`: host matching -/
/-- Does `hay` start with `pat`? (character-list comparison). -/
def listStarts : List Char → List Char → Bool
  | _, [] => true
  | [], _ :: _ => false
  | c :: cs, p :: ps => c = p && listStarts cs ps

/-- Python `pat in hay` for strings (substring containment). -/
def containsSub (pat : List Char) : List Char → Bool
  | [] => pat.isEmpty
  | c :: t => listStarts (c :: t) pat || containsSub pat t

/-- A character allowed in a URL scheme by `urllib.parse`. -/
def isSchemeChar (c : Char) : Bool :=
  c.isAlpha || c.isDigit || c = '+' || c = '-' || c = '.'

/-- Strip a leading `scheme:` as `urllib.parse.urlsplit` does: the prefix
before the first `':'` must be nonempty, start with a letter, and consist of
scheme characters. -/
def dropScheme (cs : List Char) : List Char :=
  let pre := cs.takeWhile (· ≠ ':')
  if pre.length > 0 && pre.length < cs.length
      && (match pre with | c :: rest => c.isAlpha && rest.all isSchemeChar | [] => false) then
    cs.drop (pre.length + 1)
  else cs

/-- `urllib.parse.urlparse(url).netloc`: after the scheme, a `netloc` is
present only when the remainder begins with `"//"`, and extends to the next
`'/'`, `'?'` or `'#'`. -/
def netlocOf (url : String) : String :=
  match dropScheme url.data with
  | '/' :: '/' :: r =>
    String.mk (r.takeWhile (fun c => c ≠ '/' && c ≠ '?' && c ≠ '#'))
  | _ => ""

/-- `_is_itandibb_host` (auth.py): `"itandibb.com" in urlparse(url).netloc`. -/
def is_itandibb_host (url : String) : Bool :=
  containsSub "itandibb.com".data (netlocOf url).data

deriving instance DecidableEq for Except

/-! ## `models.py`: data classes -/
/-- `Property` (models.py): one room's listing record.  String-typed fields
that the Python code stores raw (without `str()`) are rendered through
`pyStr`; only string values occur in the shapes the claims exercise. -/
structure Property where
  building_id : Int
  room_id : Int
  building_name : String
  address : String
  rent : Int
  management_fee : Int
  deposit : String
  key_money : String
  layout : String
  area : DecNum
  floor : Int
  building_age : String
  station_info : String
  room_number : String
  url : String
  image_url : Option String
deriving DecidableEq, Repr

/-! ## `search.py`: response parsing -/
/-- Python `int(s)` on a string: optional sign and decimal digits (after
stripping whitespace); anything else raises `ValueError`. -/
def pyIntOfStr (s : String) : Except Unit Int :=
  match stripWs s.data with
  | '-' :: ds =>
    if !ds.isEmpty && ds.all Char.isDigit then .ok (-(digitsVal ds : Int))
    else .error ()
  | '+' :: ds =>
    if !ds.isEmpty && ds.all Char.isDigit then .ok (digitsVal ds)
    else .error ()
  | ds =>
    if !ds.isEmpty && ds.all Char.isDigit then .ok (digitsVal ds)
    else .error ()

/-- Python `int(v)` on a JSON value (`TypeError` on non-numeric shapes). -/
def pyInt (v : JVal) : Except Unit Int :=
  match v with
  | .num n => .ok n
  | .bool b => .ok (if b then 1 else 0)
  | .str s => pyIntOfStr s
  | _ => .error ()

/-- `_parse_price_text` applied to a raw JSON field value: a falsy value
returns 0 via the `if not text` guard; a truthy string is parsed; a truthy
non-string raises (`.replace` on a non-`str`). -/
def parsePriceVal (v : JVal) : Except Unit Int :=
  if !jTruthy v then .ok 0
  else
    match v with
    | .str s => parse_price_text s
    | _ => .error ()

/-- `_parse_area_text` applied to a raw JSON field value (same raising
behaviour as `parsePriceVal`). -/
def parseAreaVal (v : JVal) : Except Unit DecNum :=
  if !jTruthy v then .ok ⟨0, 0⟩
  else
    match v with
    | .str s => parse_area_text s
    | _ => .error ()

/-- `v or ""` rendered into the `String`-typed record field (Python keeps
the raw value; only strings occur in the claims' data). -/
def jStrD (v : JVal) : String := if jTruthy v then pyStr v else ""

/-- A possibly-`None` URL field value as `Option String`. -/
def jOptStr : JVal → Option String
  | .null => none
  | .str s => some s
  | v => some (pyStr v)

/-- The per-room loop of `parse_search_response` (search.py lines 319–364):
a room that is not a dict, or whose `property_id` is falsy, is skipped; the
text fields are parsed in source order, any raise propagating. -/
def parseRooms (propertyId : JVal) (buildingName address buildingAge
    stationInfo : String) (imageUrlBldg : JVal) :
    List JVal → Except Unit (List Property)
  | [] => .ok []
  | room :: rest =>
    match room with
    | .obj rkvs =>
      let roomId := jGetD rkvs "property_id" (.num 0)
      if jTruthy roomId then do
        let rent ← parsePriceVal (jGetD rkvs "rent_text" (.str ""))
        let managementFee ← parsePriceVal
          (pyOr (jGetD rkvs "kanrihi_text" (.str ""))
                (jGetD rkvs "kanrihi_kyoekihi_text" (.str "")))
        let deposit := jStrD (jGetD rkvs "shikikin_text" (.str ""))
        let keyMoney := jStrD (jGetD rkvs "reikin_text" (.str ""))
        let layout := jStrD (jGetD rkvs "layout_text" (.str ""))
        let area ← parseAreaVal
          (pyOr (jGetD rkvs "floor_area_text" (.str "")) (.str ""))
        let imageUrl := pyOr (jGetD rkvs "madori_image_url" .null) imageUrlBldg
        let roomNumber := jStrD (jGetD rkvs "room_number" (.str ""))
        let buildingId ← if jTruthy propertyId then pyInt propertyId else pure 0
        let roomIdInt ← pyInt roomId
        let prop : Property :=
          { building_id := buildingId
            room_id := roomIdInt
            building_name := buildingName
            address := address
            rent := rent
            management_fee := managementFee
            deposit := deposit
            key_money := keyMoney
            layout := layout
            area := area
            floor := 0
            building_age := buildingAge
            station_info := stationInfo
            room_number := roomNumber
            url := "https://itandibb.com/rent_rooms/" ++ pyStr roomId
            image_url := jOptStr imageUrl }
        let more ← parseRooms propertyId buildingName address buildingAge
          stationInfo imageUrlBldg rest
        .ok (prop :: more)
      else
        parseRooms propertyId buildingName address buildingAge stationInfo
          imageUrlBldg rest
    | _ =>
      parseRooms propertyId buildingName address buildingAge stationInfo
        imageUrlBldg rest

/-- The per-building loop of `parse_search_response` (search.py lines
297–364).  A non-dict building is skipped; a building with falsy `rooms` is
skipped; iterating a truthy non-list `rooms` value either yields only
non-dict elements (strings, dict keys — all skipped) or raises
(`TypeError` on int/bool). -/
def parseBuildings : List JVal → Except Unit (List Property)
  | [] => .ok []
  | bldg :: rest =>
    match bldg with
    | .obj bkvs =>
      let propertyId := jGetD bkvs "property_id" (.num 0)
      let buildingName := pyStr (jGetD bkvs "name" (.str ""))
      let address := pyStr (jGetD bkvs "address_text" (.str ""))
      let buildingAge := jStrD (jGetD bkvs "building_age_text" (.str ""))
      let imageUrlBldg := jGetD bkvs "image_url" .null
      let stationInfo :=
        match jGetD bkvs "nearby_train_station_texts" (.arr []) with
        | .arr (x :: _) => pyStr x
        | _ => ""
      let roomsV := jGetD bkvs "rooms" (.arr [])
      if jTruthy roomsV then
        match roomsV with
        | .arr rooms => do
          let here ← parseRooms propertyId buildingName address buildingAge
            stationInfo imageUrlBldg rooms
          let more ← parseBuildings rest
          .ok (here ++ more)
        | .str _ => parseBuildings rest
        | .obj _ => parseBuildings rest
        | _ => .error ()
      else parseBuildings rest
    | _ => parseBuildings rest

/-- `parse_search_response` (search.py): the top-level `buildings` key,
replaced by `[]` when missing or not a list. -/
def parse_search_response (data : List (String × JVal)) :
    Except Unit (List Property) :=
  match jGetD data "buildings" (.arr []) with
  | .arr bs => parseBuildings bs
  | _ => parseBuildings []

/-! ## `search.py`: pagination loop of `search_properties` -/
/-- Outcome of one `session.api_post` call as observed by
`search_properties`: either the call raises, or it returns a dict with a
`status`, a parsed JSON `body` (an object in every scenario the claims
describe) and the raw text. -/
inductive PostOutcome where
  | raises
  | returns (status : Nat) (body : List (String × JVal)) (raw : String)

/-- The `has_next` computation of `search_properties` (search.py lines
242–247): `meta.next_bucket_exists`, falling back to
`aggregation.next_bucket_exists`; `.get` on a non-dict `meta`/`aggregation`
raises. -/
def jHasNext (data : List (String × JVal)) : Except Unit Bool :=
  match jGetD data "meta" (.obj []) with
  | .obj mkvs =>
    if jTruthy (jGetD mkvs "next_bucket_exists" (.bool false)) then .ok true
    else
      match jGetD data "aggregation" (.obj []) with
      | .obj akvs => .ok (jTruthy (jGetD akvs "next_bucket_exists" (.bool false)))
      | _ => .error ()
  | _ => .error ()

/-- The `while page <= max_pages` loop of `search_properties` (search.py
lines 212–253), abstracted over the per-page API outcome.  `fuel` is the
number of page numbers left (`max_pages - page + 1`); on success the pair
carries the accumulated properties and the number of page requests issued.
Status handling follows the source: a raising `api_post` becomes
`ItandiSearchError`; 401 raises `ItandiAuthError`; 422, 429 and any other
non-200 status raise `ItandiSearchError`; an exception escaping
`parse_search_response` or the `has_next` computation propagates raw
(`other`). -/
def searchPagesFrom (oracle : Nat → PostOutcome) :
    Nat → Nat → Except PyExcKind (List Property × Nat)
  | _, 0 => .ok ([], 0)
  | page, fuel + 1 =>
    match oracle page with
    | .raises => .error .itandiSearch
    | .returns status body _ =>
      if status = 401 then .error .itandiAuth
      else if status = 422 then .error .itandiSearch
      else if status = 429 then .error .itandiSearch
      else if status ≠ 200 then .error .itandiSearch
      else
        match parse_search_response body with
        | .error _ => .error .other
        | .ok props =>
          match jHasNext body with
          | .error _ => .error .other
          | .ok true =>
            match searchPagesFrom oracle (page + 1) fuel with
            | .ok (rest, n) => .ok (props ++ rest, n + 1)
            | .error e => .error e
          | .ok false => .ok (props, 1)

/-- `search_properties` from page 1 with `max_pages = 10`, abstracted over
the session (station resolution and payload construction do not affect the
pagination behaviour). -/
def search_properties_pages (oracle : Nat → PostOutcome) :
    Except PyExcKind (List Property × Nat) :=
  searchPagesFrom oracle 1 10

/-- Concatenation of per-page parse results over a list of page numbers. -/
def concatAll (props : Nat → List Property) : List Nat → List Property
  | [] => []
  | i :: rest => props i ++ concatAll props rest

/-! ## `config.py` / `search.py`: station resolution -/
/-- `PREFECTURE_IDS` (config.py): prefecture name → numeric id. -/
def PREFECTURE_IDS : List (String × Int) :=
  [("北海道", 1), ("青森県", 2), ("岩手県", 3), ("宮城県", 4), ("秋田県", 5),
   ("山形県", 6), ("福島県", 7), ("茨城県", 8), ("栃木県", 9), ("群馬県", 10),
   ("埼玉県", 11), ("千葉県", 12), ("東京都", 13), ("神奈川県", 14),
   ("新潟県", 15), ("富山県", 16), ("石川県", 17), ("福井県", 18),
   ("山梨県", 19), ("長野県", 20), ("岐阜県", 21), ("静岡県", 22),
   ("愛知県", 23), ("三重県", 24), ("滋賀県", 25), ("京都府", 26),
   ("大阪府", 27), ("兵庫県", 28), ("奈良県", 29), ("和歌山県", 30),
   ("鳥取県", 31), ("島根県", 32), ("岡山県", 33), ("広島県", 34),
   ("山口県", 35), ("徳島県", 36), ("香川県", 37), ("愛媛県", 38),
   ("高知県", 39), ("福岡県", 40), ("佐賀県", 41), ("長崎県", 42),
   ("熊本県", 43), ("大分県", 44), ("宮崎県", 45), ("鹿児島県", 46),
   ("沖縄県", 47)]

/-- `dict.get` on the prefecture table. -/
def prefLookup : List (String × Int) → String → Option Int
  | [], _ => none
  | (k, v) :: rest, s => if k = s then some v else prefLookup rest s

/-- The per-station filter of `resolve_station_ids` (search.py lines
83–90): keep a station only if its `label` equals the (stripped) requested
name exactly and, when a truthy `prefecture_id` is at hand, only if the
station's `prefecture_id` equals it; `st["id"]` of a kept station is
appended raw.  A non-dict station element raises (`st.get` on a non-dict);
a kept station without an `id` key raises `KeyError`. -/
def collectStations (prefectureId : Option Int) (name : String) :
    List JVal → Except Unit (List JVal)
  | [] => .ok []
  | st :: rest =>
    match st with
    | .obj skvs =>
      if !jStrEq (jGetD skvs "label" .null) name then
        collectStations prefectureId name rest
      else if (match prefectureId with
               | some pid => pid ≠ 0 && !jNumEq (jGetD skvs "prefecture_id" .null) pid
               | none => false) then
        collectStations prefectureId name rest
      else
        match jIndex skvs "id" with
        | some v => do
          let more ← collectStations prefectureId name rest
          .ok (v :: more)
        | none => .error ()
    | _ => .error ()

/-- `for st in stations` over the raw `stations` value: a list iterates its
elements; an empty string or empty dict iterates nothing; any other
non-list shape either yields non-dict elements (raising at `st.get`) or is
not iterable (`TypeError`). -/
def iterStations (prefectureId : Option Int) (name : String) :
    JVal → Except Unit (List JVal)
  | .arr xs => collectStations prefectureId name xs
  | .str s => if s = "" then .ok [] else .error ()
  | .obj kvs => if kvs.isEmpty then .ok [] else .error ()
  | _ => .error ()

/-- The per-name loop of `resolve_station_ids` (search.py lines 65–90):
blank names are skipped; a raising or non-200 station lookup logs a warning
and skips the name. -/
def resolveLoop (lookup : String → PostOutcome) (prefectureId : Option Int) :
    List String → Except Unit (List JVal)
  | [] => .ok []
  | n :: rest =>
    let name := String.mk (stripWs n.data)
    if name = "" then resolveLoop lookup prefectureId rest
    else
      match lookup name with
      | .raises => resolveLoop lookup prefectureId rest
      | .returns status body _ =>
        if status ≠ 200 then resolveLoop lookup prefectureId rest
        else do
          let ids ← iterStations prefectureId name
            (jGetD body "stations" (.arr []))
          let more ← resolveLoop lookup prefectureId rest
          .ok (ids ++ more)

/-- `resolve_station_ids` (search.py), abstracted over the
`session.api_get` transport: `lookup` maps the (stripped, then URL-quoted)
station name to the outcome of the stations-API GET.  `prefecture_id` is
`PREFECTURE_IDS.get(prefecture) if prefecture else None`. -/
def resolve_station_ids (lookup : String → PostOutcome)
    (station_names : List String) (prefecture : Option String) :
    Except Unit (List JVal) :=
  let prefectureId :=
    match prefecture with
    | some p => if p ≠ "" then prefLookup PREFECTURE_IDS p else none
    | none => none
  resolveLoop lookup prefectureId station_names

/-- The element list Python iterates for a given raw `stations` value
(empty for the non-list shapes that iterate nothing). -/
def svList : JVal → List JVal
  | .arr xs => xs
  | _ => []

/-- The stations list of a 200 response body, as iterated by
`resolve_station_ids`. -/
def stationsListOf (body : List (String × JVal)) : List JVal :=
  svList (jGetD body "stations" (.arr []))

/-- The concrete station-lookup response for the C9 example: a partial-name
collision (`高座渋谷` contains `渋谷`) and a same-name station in another
prefecture (`prefecture_id` 14) alongside the requested Tokyo station. -/
def shibuyaStationsBody : List (String × JVal) :=
  [("stations", .arr
    [.obj [("label", .str "高座渋谷"), ("prefecture_id", .num 14),
           ("id", .num 101)],
     .obj [("label", .str "渋谷"), ("prefecture_id", .num 13),
           ("id", .num 202)],
     .obj [("label", .str "渋谷"), ("prefecture_id", .num 14),
           ("id", .num 303)]])]

def shibuyaLookup : String → PostOutcome :=
  fun _ => .returns 200 shibuyaStationsBody ""

/-! ## `discord.py`: webhook posting -/
/-- Outcome of one `requests.post` to the webhook: either the call raises
(connection error), or a response arrives with a status code and — relevant
only to 429 handling — the result of `resp.json().get("retry_after", 5)`:
`.error` when the body is not JSON (so `.json()` raises), otherwise the
optional field value. -/
inductive HttpPostOutcome where
  | raises
  | resp (status : Nat) (retryAfterField : Except Unit (Option Int))

/-- Events observable from `_post_with_retry`: the numbered POST attempts
and the backoff sleep. -/
inductive NotifyEvent where
  | post (attempt : Nat)
  | sleepFor (t : Int)
deriving DecidableEq, Repr

/-- `_post_with_retry` (discord.py lines 108–151): POST, then
`raise_for_status` (raises `HTTPError` for status ≥ 400).  On 429 the
handler reads `retry_after` (default 5) from the response JSON, sleeps, and
retries once inside a `try/except Exception` — so *no* outcome of the retry
(`second`), including another 429, escapes or triggers a further retry.  A
non-429 HTTP error and a raising first POST are logged without retrying.
The only escaping exception is `resp.json()` raising inside the 429
handler.  Returns the event trace and whether an exception escapes. -/
def post_with_retry (first second : HttpPostOutcome) :
    List NotifyEvent × Bool :=
  match first with
  | .raises => ([.post 1], false)
  | .resp status retryAfter =>
    if status < 400 then ([.post 1], false)
    else if status = 429 then
      match retryAfter with
      | .error _ => ([.post 1], true)
      | .ok f =>
        match second with
        | _ => ([.post 1, .sleepFor (f.getD 5), .post 2], false)
    else ([.post 1], false)

/-- Kinds of webhook messages `send_property_notification` posts. -/
inductive NotifyMsg where
  | threadHeader
  | listing (index : Nat)
  | bulkApprove
deriving DecidableEq, Repr

def isListingMsg : NotifyMsg → Bool
  | .listing _ => true
  | _ => false

/-- `send_property_notification` (discord.py lines 12–105), reduced to the
sequence of webhook messages it posts.  With an empty list nothing is
posted.  Without a `thread_id` it first posts a thread-creation header
(`?wait=true`); if that POST raises or errors the function returns early
(whether the response carries a `channel_id` only changes the target URL).
It then posts one message per listing (index `i + 1`) via
`_post_with_retry`, and finally — when a GAS web-app URL is configured and
more than one listing was sent — a bulk approval message. -/
def send_property_notification_msgs (threadId : Option String)
    (gasWebappUrl : String) (headerOutcome : Except Unit (Option String))
    (props : List Property) : List NotifyMsg :=
  if props.isEmpty then []
  else
    let listingMsgs :=
      (List.range props.length).map (fun i => NotifyMsg.listing (i + 1))
    let bulkMsgs :=
      if gasWebappUrl ≠ "" && props.length > 1 then [NotifyMsg.bulkApprove]
      else []
    match threadId with
    | some _ => listingMsgs ++ bulkMsgs
    | none =>
      match headerOutcome with
      | .error _ => [NotifyMsg.threadHeader]
      | .ok _ => NotifyMsg.threadHeader :: (listingMsgs ++ bulkMsgs)

/-! ## `sheets.py`: row construction -/
/-- Left-pad a number with zeros to `width` digits (for decimal tails). -/
def natToPadded (n width : Nat) : String :=
  let s := toString n
  String.mk (List.replicate (width - s.length) '0') ++ s

/-- `str()` of the float a `DecNum` denotes (`25.5` → `"25.5"`,
`0.0` → `"0.0"`). -/
def decToString (d : DecNum) : String :=
  if d.exp = 0 then toString d.mant ++ ".0"
  else toString (d.mant / 10 ^ d.exp) ++ "." ++
    natToPadded (d.mant % 10 ^ d.exp) d.exp

def jsonStr (s : String) : String := "\"" ++ s ++ "\""

def jsonOptStr : Option String → String
  | none => "null"
  | some s => jsonStr s

/-- The `property_data_json` column of a pending row (`json.dumps` of the
extra display fields, sheets.py lines 229–241; string escaping omitted —
no claim inspects this column's text). -/
def property_data_json (p : Property) : String :=
  "\x7b\"deposit\": " ++ jsonStr p.deposit ++
  ", \"key_money\": " ++ jsonStr p.key_money ++
  ", \"address\": " ++ jsonStr p.address ++
  ", \"url\": " ++ jsonStr p.url ++
  ", \"image_url\": " ++ jsonOptStr p.image_url ++
  ", \"room_number\": " ++ jsonStr p.room_number ++
  ", \"building_age\": " ++ jsonStr p.building_age ++
  ", \"floor\": " ++ toString p.floor ++ "\x7d"

/-- `write_pending_properties` (sheets.py lines 215–268): the rows appended
to the pending sheet — one 13-column row per property. -/
def write_pending_values (customerName : String) (props : List Property)
    (nowStr : String) : List (List String) :=
  props.map (fun p =>
    [customerName, toString p.building_id, toString p.room_id,
     p.building_name, toString p.rent, toString p.management_fee, p.layout,
     decToString p.area, p.station_info, property_data_json p, "pending",
     nowStr, ""])

/-- One entry of `mark_properties_seen` (sheets.py lines 154–183). -/
structure SeenEntry where
  customer_name : String
  building_id : Int
  room_id : Int
  building_name : String
  rent : Int
  notified_at : String
deriving DecidableEq, Repr

/-- `mark_properties_seen`: the rows appended to the seen sheet — one
6-column row per entry.  No code under `run.py` ever calls this
function. -/
def mark_properties_seen_values (entries : List SeenEntry) :
    List (List String) :=
  entries.map (fun e =>
    [e.customer_name, toString e.building_id, toString e.room_id,
     e.building_name, toString e.rent, e.notified_at])

/-! ## `run.py`: the orchestrating `main` -/
/-- The fields of `CustomerCriteria` that `main` itself consumes (the full
criteria only flow into `search_properties`, which is abstracted by the
per-customer search outcome). -/
structure Customer where
  name : String
  discordThreadId : Option String
deriving DecidableEq, Repr

/-- How `ItandiSession.login` (auth.py lines 67–86) plays out:
`_create_driver()` raises before a browser is launched; `_do_login` raises
(an `ItandiAuthError` or some other exception) after the launch; or login
succeeds. -/
inductive LoginOutcome where
  | createRaises
  | doLoginRaises (isAuthError : Bool)
  | success
deriving DecidableEq, Repr

/-- Externally observable effects of one run of `main`. -/
inductive Effect where
  | driverLaunch
  | driverQuit
  | sessionClose
  | searchCall (idx : Nat)
  | errorNotify
  | enrichCall (idx : Nat)
  | writePending (customerName : String) (props : List Property)
  | notifyBatch (idx : Nat) (customerName : String) (props : List Property)
      (threadId : Option String)
  | seenAppend (entries : List SeenEntry)
  | fatalExit
deriving DecidableEq, Repr

/-- Result of `ItandiSession.login`: its effects, its outcome, and the
value of `self.driver` afterwards. -/
structure LoginResult where
  effects : List Effect
  outcome : Except PyExcKind Unit
  driver : Option Unit
deriving Repr

/-- `ItandiSession.login`: on a `_do_login` exception the launched driver
is quit and the handle reset *before* the exception propagates (auth.py
lines 77–83); a `_create_driver` failure launches nothing. -/
def loginModel : LoginOutcome → LoginResult
  | .createRaises => ⟨[], .error .other, none⟩
  | .doLoginRaises true => ⟨[.driverLaunch, .driverQuit], .error .itandiAuth, none⟩
  | .doLoginRaises false => ⟨[.driverLaunch, .driverQuit], .error .other, none⟩
  | .success => ⟨[.driverLaunch], .ok (), some ()⟩

/-- The external world of one run of `main`: outcomes of the Sheets
initialisation, the criteria / seen / pending loads, the login, and the
per-customer `search_properties` call (indexed by customer position).
`webhookConfigured` is the truthiness of `DISCORD_WEBHOOK_URL`. -/
structure RunEnv where
  sheetsInitOk : Bool
  criteriaLoad : Except Unit (List Customer)
  forceNotify : Bool
  seenLoad : Except Unit (List (String × Int))
  pendingLoad : Except Unit (List (String × Int))
  loginOutcome : LoginOutcome
  webhookConfigured : Bool
  searchResult : Nat → Except PyExcKind (List Property)

def exceptGetD {a : Type} (x : Except Unit a) (d : a) : a :=
  match x with
  | .ok v => v
  | .error _ => d

/-- `exclude_set = seen_set | pending_set` (run.py lines 59–77): empty under
`FORCE_NOTIFY=1`; a failing load degrades to an empty set with a warning. -/
def initialExclude (env : RunEnv) : List (String × Int) :=
  if env.forceNotify then []
  else exceptGetD env.seenLoad [] ++ exceptGetD env.pendingLoad []

/-- `(customer_name, room_id) in exclude_set`. -/
def pairMem (s : List (String × Int)) (p : String × Int) : Bool :=
  s.any (fun q => q.1 = p.1 && q.2 = p.2)

/-- One iteration of the per-customer loop (run.py lines 98–173).
`ItandiSearchError` and *every other* exception — `ItandiAuthError`
included — is caught by the two `except` clauses, reported when a webhook
is configured, and the loop continues; on success the listings already in
`exclude_set` are filtered out, the rest are enriched, written to the
pending sheet, notified (when a webhook is configured), and added to
`exclude_set`. -/
def runCustomer (env : RunEnv) (idx : Nat) (c : Customer)
    (excl : List (String × Int)) : List Effect × List (String × Int) :=
  match env.searchResult idx with
  | .error _ =>
    ([.searchCall idx] ++
      (if env.webhookConfigured then [.errorNotify] else []), excl)
  | .ok props =>
    let newProps := props.filter (fun p => !pairMem excl (c.name, p.room_id))
    if newProps.isEmpty then ([.searchCall idx], excl)
    else
      ([.searchCall idx, .enrichCall idx, .writePending c.name newProps] ++
        (if env.webhookConfigured then
          [.notifyBatch idx c.name newProps c.discordThreadId]
        else []),
       excl ++ newProps.map (fun p => (c.name, p.room_id)))

/-- The per-customer loop threading `exclude_set`. -/
def runLoop (env : RunEnv) :
    Nat → List Customer → List (String × Int) → List Effect
  | _, [], _ => []
  | idx, c :: rest, excl =>
    let step := runCustomer env idx c excl
    step.1 ++ runLoop env (idx + 1) rest step.2

inductive RunOutcome where
  | fatal
  | raised
  | normal
deriving DecidableEq, Repr

/-- `main` (run.py lines 35–183): Sheets init and criteria load failures
exit fatally; an empty criteria list returns before login; a login
`ItandiAuthError` is reported, the session closed, and the process exits
fatally; any other login exception propagates uncaught; otherwise the
per-customer loop runs to completion (it swallows every exception) and the
session is closed once at the end.  `close()` quits the driver only when
the handle is still set. -/
def main_run (env : RunEnv) : List Effect × RunOutcome :=
  if !env.sheetsInitOk then ([.fatalExit], .fatal)
  else
    match env.criteriaLoad with
    | .error _ => ([.fatalExit], .fatal)
    | .ok customers =>
      if customers.isEmpty then ([], .normal)
      else
        let lr := loginModel env.loginOutcome
        match lr.outcome with
        | .error .itandiAuth =>
          (lr.effects ++
            (if env.webhookConfigured then [.errorNotify] else []) ++
            [.sessionClose] ++
            (if lr.driver.isSome then [.driverQuit] else []) ++
            [.fatalExit], .fatal)
        | .error _ => (lr.effects, .raised)
        | .ok _ =>
          (lr.effects ++ runLoop env 0 customers (initialExclude env) ++
            [.sessionClose] ++
            (if lr.driver.isSome then [.driverQuit] else []), .normal)

/-! ## Trace observations -/
def isLaunchE : Effect → Bool
  | .driverLaunch => true
  | _ => false

def isQuitE : Effect → Bool
  | .driverQuit => true
  | _ => false

def isCloseE : Effect → Bool
  | .sessionClose => true
  | _ => false

def isSearchCallE : Effect → Bool
  | .searchCall _ => true
  | _ => false

/-- All `(customer_name, room_id)` pairs notified in a trace. -/
def notifiedPairs : List Effect → List (String × Int)
  | [] => []
  | .notifyBatch _ name ps _ :: rest =>
    ps.map (fun p => (name, p.room_id)) ++ notifiedPairs rest
  | _ :: rest => notifiedPairs rest

/-- All `(customer_name, room_id)` pairs written to the pending sheet in a
trace. -/
def pendingPairs : List Effect → List (String × Int)
  | [] => []
  | .writePending name ps :: rest =>
    ps.map (fun p => (name, p.room_id)) ++ pendingPairs rest
  | _ :: rest => pendingPairs rest

/-- The notification batches of a trace, in order. -/
def notifyBatches : List Effect → List (String × List Property)
  | [] => []
  | .notifyBatch _ name ps _ :: rest => (name, ps) :: notifyBatches rest
  | _ :: rest => notifyBatches rest

/-- The pairs of one notification batch. -/
def batchPairs (b : String × List Property) : List (String × Int) :=
  b.2.map (fun p => (b.1, p.room_id))

/-- Number of per-listing webhook messages posted for the notification
batches of a trace, composing `main` with `send_property_notification`. -/
def listingMsgsFromTrace (gasWebappUrl : String)
    (headerOutcome : Except Unit (Option String)) : List Effect → Nat
  | [] => 0
  | .notifyBatch _ _ props tid :: rest =>
    (send_property_notification_msgs tid gasWebappUrl headerOutcome
      props).countP isListingMsg +
      listingMsgsFromTrace gasWebappUrl headerOutcome rest
  | _ :: rest => listingMsgsFromTrace gasWebappUrl headerOutcome rest

/-- Number of rows appended to the pending sheet across a trace, composing
`main` with `write_pending_properties`. -/
def pendingRowsFromTrace (nowStr : String) : List Effect → Nat
  | [] => 0
  | .writePending name props :: rest =>
    (write_pending_values name props nowStr).length +
      pendingRowsFromTrace nowStr rest
  | _ :: rest => pendingRowsFromTrace nowStr rest

/-- Number of rows appended to the seen sheet across a trace, composing
with `mark_properties_seen`. -/
def seenRowsFromTrace : List Effect → Nat
  | [] => 0
  | .seenAppend entries :: rest =>
    (mark_properties_seen_values entries).length + seenRowsFromTrace rest
  | _ :: rest => seenRowsFromTrace rest

/-- Concrete environment for the C6 witness: a run whose login fails with
`ItandiAuthError`. -/
def envAuthFail : RunEnv :=
  { sheetsInitOk := true
    criteriaLoad := .ok [⟨"A", none⟩]
    forceNotify := false
    seenLoad := .ok []
    pendingLoad := .ok []
    loginOutcome := .doLoginRaises true
    webhookConfigured := true
    searchResult := fun _ => .ok [] }

/-- The search oracle of the C1 counterexample: every page request answers
HTTP 401. -/
def oracle401 : Nat → PostOutcome := fun _ => .returns 401 [] ""

/-- Concrete environment for C1: two customers; the first customer's
search hits a 401 (via the real pagination model), the second succeeds. -/
def envAuthSearch : RunEnv :=
  { sheetsInitOk := true
    criteriaLoad := .ok [⟨"A", none⟩, ⟨"B", none⟩]
    forceNotify := false
    seenLoad := .ok []
    pendingLoad := .ok []
    loginOutcome := .success
    webhookConfigured := true
    searchResult := fun idx =>
      if idx = 0 then Except.map Prod.fst (search_properties_pages oracle401)
      else .ok [] }

/-- A building whose one room has identifier 5 — listed twice in the
C2 counterexample response. -/
def dupBuilding : JVal :=
  .obj [("property_id", .num 1), ("name", .str "B"),
        ("rooms", .arr [.obj [("property_id", .num 5),
                              ("rent_text", .str "10万円")]])]

/-- A one-page search response containing the same building (hence the same
room id) twice. -/
def dupBody : List (String × JVal) :=
  [("buildings", .arr [dupBuilding, dupBuilding]),
   ("meta", .obj [("next_bucket_exists", .bool false)])]

/-- Environment for the C2 counterexample: one customer whose search (run
through the real pagination and parsing model) returns the duplicated
listing; nothing is in the seen or pending sets. -/
def envDup : RunEnv :=
  { sheetsInitOk := true
    criteriaLoad := .ok [⟨"A", none⟩]
    forceNotify := false
    seenLoad := .ok []
    pendingLoad := .ok []
    loginOutcome := .success
    webhookConfigured := true
    searchResult := fun _ =>
      Except.map Prod.fst
        (search_properties_pages (fun _ => .returns 200 dupBody "")) }

/-- A listing with room id 5, already recorded in the seen set of the C2
witness environment. -/
def propFive : Property :=
  { building_id := 1, room_id := 5, building_name := "B", address := "",
    rent := 100000, management_fee := 0, deposit := "", key_money := "",
    layout := "", area := ⟨0, 0⟩, floor := 0, building_age := "",
    station_info := "", room_number := "",
    url := "https://itandibb.com/rent_rooms/5", image_url := none }

/-- Witness environment for C2: the searched listing's pair is already in
the seen set. -/
def envSeen : RunEnv :=
  { sheetsInitOk := true
    criteriaLoad := .ok [⟨"A", none⟩]
    forceNotify := false
    seenLoad := .ok [("A", 5)]
    pendingLoad := .ok []
    loginOutcome := .success
    webhookConfigured := true
    searchResult := fun _ => .ok [propFive] }

/-- The C8 end-to-end scenario response: one page, two buildings with one
and two rooms respectively, each room carrying its identifier. -/
def scenarioBody : List (String × JVal) :=
  [("buildings", .arr
    [.obj [("property_id", .num 100), ("name", .str "ビルA"),
           ("address_text", .str "東京都千代田区1-1"),
           ("building_age_text", .str "築10年"),
           ("image_url", .str "https://img.example/a"),
           ("nearby_train_station_texts", .arr [.str "山手線 東京駅 徒歩5分"]),
           ("rooms", .arr
             [.obj [("property_id", .num 11), ("rent_text", .str "12万円"),
                    ("kanrihi_text", .str "5,000円"),
                    ("layout_text", .str "1K"),
                    ("floor_area_text", .str "25.5m²"),
                    ("room_number", .str "101")]])],
     .obj [("property_id", .num 200), ("name", .str "ビルB"),
           ("address_text", .str "東京都港区2-2"),
           ("building_age_text", .str "築5年"),
           ("rooms", .arr
             [.obj [("property_id", .num 21), ("rent_text", .str "9.5万円"),
                    ("room_number", .str "201")],
              .obj [("property_id", .num 22), ("rent_text", .str "10万円"),
                    ("room_number", .str "202")]])]]),
   ("meta", .obj [("next_bucket_exists", .bool false)])]

def scenarioOracle : Nat → PostOutcome := fun _ => .returns 200 scenarioBody ""

/-- The C8 environment: one customer with an existing notification thread,
empty seen and pending sets, the scenario search wired through the real
pagination and parsing models. -/
def envScenario : RunEnv :=
  { sheetsInitOk := true
    criteriaLoad := .ok [⟨"山田", some "t1"⟩]
    forceNotify := false
    seenLoad := .ok []
    pendingLoad := .ok []
    loginOutcome := .success
    webhookConfigured := true
    searchResult := fun _ =>
      Except.map Prod.fst (search_properties_pages scenarioOracle) }

/-! ## Theorems -/

/-! ## Lemmas for the text parsers -/
theorem mem_of_mem_dropWhile {p : Char → Bool} {c : Char} :
    ∀ {cs : List Char}, c ∈ cs.dropWhile p → c ∈ cs := by
  intro cs h
  induction cs with
  | nil => simp [List.dropWhile] at h
  | cons d ds ih =>
    by_cases hd : p d
    · simp only [List.dropWhile, hd] at h
      exact List.mem_cons_of_mem _ (ih h)
    · simpa [List.dropWhile, hd] using h

theorem mem_of_mem_stripWs {c : Char} {cs : List Char} :
    c ∈ stripWs cs → c ∈ cs := by
  intro h
  unfold stripWs at h
  rw [List.mem_reverse] at h
  have h2 := mem_of_mem_dropWhile h
  rw [List.mem_reverse] at h2
  exact mem_of_mem_dropWhile h2

theorem searchManGroup_eq_none {cs : List Char}
    (h : ∀ c ∈ cs, isNumDot c = false) : searchManGroup cs = none := by
  induction cs with
  | nil => rfl
  | cons d ds ih =>
    have hd : isNumDot d = false := h d (List.mem_cons_self d ds)
    unfold searchManGroup
    rw [hd]
    simp only [Bool.false_eq_true, if_false]
    exact ih (fun c hc => h c (List.mem_cons_of_mem _ hc))

theorem searchNumRun_eq_none {cs : List Char}
    (h : ∀ c ∈ cs, isNumDot c = false) : searchNumRun cs = none := by
  induction cs with
  | nil => rfl
  | cons d ds ih =>
    have hd : isNumDot d = false := h d (List.mem_cons_self d ds)
    unfold searchNumRun
    rw [hd]
    simp only [Bool.false_eq_true, if_false]
    exact ih (fun c hc => h c (List.mem_cons_of_mem _ hc))

/-- C4: `_is_itandibb_host` inspects only the network-location component of
the URL.  Any URL whose netloc is the login domain `itandi-accounts.com`
(no matter what the query string — e.g. a `redirect_uri` mentioning
`itandibb.com` — contains) is reported as *not* on the application domain,
and any URL whose netloc is `itandibb.com` is reported as on it. -/
theorem host_match_uses_netloc_only (url : String) :
    (netlocOf url = "itandi-accounts.com" → is_itandibb_host url = false) ∧
    (netlocOf url = "itandibb.com" → is_itandibb_host url = true) := by
  constructor
  · intro h
    unfold is_itandibb_host
    rw [h]
    decide
  · intro h
    unfold is_itandibb_host
    rw [h]
    decide

/-- Witness for C4: the real login URL (application domain embedded in
`redirect_uri`) is rejected; the real search entry page is accepted. -/
theorem host_match_uses_netloc_only_witness :
    is_itandibb_host
      "https://itandi-accounts.com/login?redirect_uri=https%3A%2F%2Fitandibb.com%2Fitandi_accounts_callback"
      = false ∧
    is_itandibb_host "https://itandibb.com/rent_rooms/list" = true :=
  ⟨(host_match_uses_netloc_only _).1 rfl,
   (host_match_uses_netloc_only _).2 rfl⟩

/-- C10: `_is_itandibb_host` tests substring containment of `"itandibb.com"`
in the netloc rather than equality with the application host, so URLs whose
network location merely *contains* `"itandibb.com"` — `evil-itandibb.com`,
`itandibb.com.attacker.net` — are accepted as being on the application
domain even though their host is not `itandibb.com`. -/
theorem host_match_substring_false_positives :
    is_itandibb_host "https://evil-itandibb.com/" = true ∧
    netlocOf "https://evil-itandibb.com/" ≠ "itandibb.com" ∧
    is_itandibb_host "https://itandibb.com.attacker.net/" = true ∧
    netlocOf "https://itandibb.com.attacker.net/" ≠ "itandibb.com" := by
  refine ⟨rfl, ?_, rfl, ?_⟩ <;> decide

/-- Counterexample for C5: `_parse_price_text` is *not* total.  On the input
`"."` the fallback regex `[\d.]+` matches the token `"."`, and
`float(".")` raises `ValueError`, which propagates to the caller
(modelled as `.error ()`). -/
theorem price_parser_raises_on_dot : parse_price_text "." = .error () := rfl

/-- C5 (amended): the concrete mappings hold — `"12万円" → 120000`,
`"3.5万" → 35000`, `"-" → 0` — and any input containing no digit and no dot
returns 0 without raising; but the parser is not total on arbitrary garbage:
inputs whose extracted `[\d.]+` token is not a valid float literal (such as
`"."`) raise `ValueError`. -/
theorem price_parser_examples_and_no_numeric_to_zero :
    parse_price_text "12万円" = .ok 120000 ∧
    parse_price_text "3.5万" = .ok 35000 ∧
    parse_price_text "-" = .ok 0 ∧
    ∀ s : String, (∀ c ∈ s.data, isNumDot c = false) →
      parse_price_text s = .ok 0 := by
  refine ⟨rfl, rfl, rfl, ?_⟩
  intro s h
  have hno : ∀ c ∈ stripWs ((s.data.filter (· ≠ ',')).filter (· ≠ '円')),
      isNumDot c = false := by
    intro c hc
    have h1 := mem_of_mem_stripWs hc
    have h2 := List.mem_of_mem_filter (List.mem_of_mem_filter h1)
    exact h c h2
  unfold parse_price_text
  split
  · rfl
  · simp only [searchManGroup_eq_none hno, searchNumRun_eq_none hno]

/-- Witness for C5 (amended): a concrete garbage input with no digit or dot
parses to 0. -/
theorem price_parser_examples_and_no_numeric_to_zero_witness :
    parse_price_text "abcけん" = .ok 0 :=
  price_parser_examples_and_no_numeric_to_zero.2.2.2 "abcけん" (by decide)

theorem searchPagesFrom_succ (oracle : Nat → PostOutcome) (page fuel : Nat) :
    searchPagesFrom oracle page (fuel + 1) =
      match oracle page with
      | .raises => .error .itandiSearch
      | .returns status body _ =>
        if status = 401 then .error .itandiAuth
        else if status = 422 then .error .itandiSearch
        else if status = 429 then .error .itandiSearch
        else if status ≠ 200 then .error .itandiSearch
        else
          match parse_search_response body with
          | .error _ => .error .other
          | .ok props =>
            match jHasNext body with
            | .error _ => .error .other
            | .ok true =>
              match searchPagesFrom oracle (page + 1) fuel with
              | .ok (rest, n) => .ok (props ++ rest, n + 1)
              | .error e => .error e
            | .ok false => .ok (props, 1) := rfl

theorem range'_cons (s n : Nat) :
    List.range' s (n + 1) = s :: List.range' (s + 1) n := rfl

/-- If every remaining page answers 200 with a further-results flag, the
loop runs through its whole budget. -/
theorem searchPagesFrom_all_next (oracle : Nat → PostOutcome)
    (body : Nat → List (String × JVal)) (raw : Nat → String)
    (props : Nat → List Property) :
    ∀ fuel page,
      (∀ p, page ≤ p → p < page + fuel →
        oracle p = .returns 200 (body p) (raw p) ∧
        parse_search_response (body p) = .ok (props p) ∧
        jHasNext (body p) = .ok true) →
      searchPagesFrom oracle page fuel =
        .ok (concatAll props (List.range' page fuel), fuel) := by
  intro fuel
  induction fuel with
  | zero => intro page _; rfl
  | succ fuel ih =>
    intro page h
    obtain ⟨h1, h2, h3⟩ := h page (Nat.le_refl _) (by omega)
    rw [searchPagesFrom_succ, h1]
    simp only [h2, h3]
    norm_num
    rw [ih (page + 1) (fun p hp1 hp2 => h p (by omega) (by omega))]
    rw [range'_cons]
    rfl

/-- If pages up to `k` answer 200 with the flag set strictly below `k` and
clear at `k`, the loop stops right after page `k`. -/
theorem searchPagesFrom_next_until (oracle : Nat → PostOutcome)
    (body : Nat → List (String × JVal)) (raw : Nat → String)
    (props : Nat → List Property) (k : Nat) :
    ∀ fuel page, page ≤ k → k < page + fuel →
      (∀ p, page ≤ p → p ≤ k →
        oracle p = .returns 200 (body p) (raw p) ∧
        parse_search_response (body p) = .ok (props p) ∧
        jHasNext (body p) = .ok (decide (p < k))) →
      searchPagesFrom oracle page fuel =
        .ok (concatAll props (List.range' page (k + 1 - page)), k + 1 - page) := by
  intro fuel
  induction fuel with
  | zero => intro page hpk hk _; omega
  | succ fuel ih =>
    intro page hpk hk h
    obtain ⟨h1, h2, h3⟩ := h page (Nat.le_refl _) hpk
    rw [searchPagesFrom_succ, h1]
    simp only [h2, h3]
    norm_num
    by_cases hlt : page < k
    · simp only [hlt, decide_True]
      rw [ih (page + 1) (by omega) (by omega)
        (fun p hp1 hp2 => h p (by omega) hp2)]
      have harith : k + 1 - page = (k + 1 - (page + 1)) + 1 := by omega
      rw [harith, range'_cons]
      simp only [concatAll]
    · have hpk' : page = k := by omega
      simp only [hlt, decide_False]
      have harith : k + 1 - page = 1 := by omega
      rw [harith, range'_cons]
      simp only [concatAll, List.append_nil]

/-- C3: pagination termination.  (1) For every response sequence whose
further-results flag (`meta.next_bucket_exists` falling back to
`aggregation.next_bucket_exists`) is true on pages 1–3 and false on page 4,
`search_properties` issues exactly 4 page requests and returns the parsed
results of the 4 pages concatenated in order.  (2) For a sequence whose
flag never turns false, it issues exactly 10 requests (the hard `max_pages`
cap) and no more, returning the 10 pages' results. -/
theorem pagination_termination :
    (∀ (oracle : Nat → PostOutcome) (body : Nat → List (String × JVal))
        (raw : Nat → String) (props : Nat → List Property),
      (∀ p, 1 ≤ p → p ≤ 4 → oracle p = .returns 200 (body p) (raw p)) →
      (∀ p, 1 ≤ p → p ≤ 4 → parse_search_response (body p) = .ok (props p)) →
      (∀ p, 1 ≤ p → p ≤ 3 → jHasNext (body p) = .ok true) →
      jHasNext (body 4) = .ok false →
      search_properties_pages oracle =
        .ok (props 1 ++ props 2 ++ props 3 ++ props 4, 4)) ∧
    (∀ (oracle : Nat → PostOutcome) (body : Nat → List (String × JVal))
        (raw : Nat → String) (props : Nat → List Property),
      (∀ p, 1 ≤ p →
        oracle p = .returns 200 (body p) (raw p) ∧
        parse_search_response (body p) = .ok (props p) ∧
        jHasNext (body p) = .ok true) →
      search_properties_pages oracle =
        .ok (concatAll props [1, 2, 3, 4, 5, 6, 7, 8, 9, 10], 10)) := by
  constructor
  · intro oracle body raw props ho hp hn3 hn4
    have := searchPagesFrom_next_until oracle body raw props 4 10 1
      (by omega) (by omega)
      (fun p hp1 hp2 => by
        refine ⟨ho p hp1 hp2, hp p hp1 hp2, ?_⟩
        by_cases h4 : p < 4
        · simp only [h4, decide_True]
          exact hn3 p hp1 (by omega)
        · have hp4 : p = 4 := by omega
          simp only [h4, decide_False, hp4]
          exact hn4)
    unfold search_properties_pages
    rw [this]
    norm_num
    simp [concatAll]
  · intro oracle body raw props h
    have := searchPagesFrom_all_next oracle body raw props 10 1
      (fun p hp1 _ => h p hp1)
    unfold search_properties_pages
    rw [this]
    rfl

/-- Witness for C3: a concrete four-page sequence (flag from `meta` on
pages 1–3, clear on page 4) and a concrete always-true sequence. -/
theorem pagination_termination_witness :
    search_properties_pages (fun p =>
        .returns 200 [("buildings", .arr []),
          ("meta", .obj [("next_bucket_exists", .bool (p < 4))])] "") =
      .ok (([] : List Property) ++ [] ++ [] ++ [], 4) ∧
    search_properties_pages (fun _ =>
        .returns 200 [("buildings", .arr []),
          ("meta", .obj [("next_bucket_exists", .bool true)])] "") =
      .ok (concatAll (fun _ => ([] : List Property))
        [1, 2, 3, 4, 5, 6, 7, 8, 9, 10], 10) := by
  constructor
  · exact pagination_termination.1
      (fun p => .returns 200 [("buildings", .arr []),
        ("meta", .obj [("next_bucket_exists", .bool (p < 4))])] "")
      (fun p => [("buildings", .arr []),
        ("meta", .obj [("next_bucket_exists", .bool (p < 4))])])
      (fun _ => "") (fun _ => [])
      (fun p h1 h2 => rfl)
      (fun p h1 h2 => rfl)
      (fun p h1 h2 => by
        have : (p < 4) = True := by simp; omega
        simp [jHasNext, jGetD, jTruthy, this])
      (by rfl)
  · exact pagination_termination.2
      (fun _ => .returns 200 [("buildings", .arr []),
        ("meta", .obj [("next_bucket_exists", .bool true)])] "")
      (fun _ => [("buildings", .arr []),
        ("meta", .obj [("next_bucket_exists", .bool true)])])
      (fun _ => "") (fun _ => [])
      (fun p h1 => ⟨rfl, rfl, rfl⟩)

theorem exceptBind_ok {e a b : Type} (x : a) (f : a → Except e b) :
    (Except.ok x >>= f) = f x := rfl

theorem exceptBind_err {e a b : Type} (err : e) (f : a → Except e b) :
    ((Except.error err : Except e a) >>= f) = Except.error err := rfl

theorem collectStations_sound (pid : Int) (hpid : pid ≠ 0) (name : String) :
    ∀ (xs ids : List JVal),
      collectStations (some pid) name xs = .ok ids →
      ∀ v ∈ ids, ∃ skvs, JVal.obj skvs ∈ xs ∧
        jStrEq (jGetD skvs "label" .null) name = true ∧
        jNumEq (jGetD skvs "prefecture_id" .null) pid = true ∧
        jIndex skvs "id" = some v := by
  intro xs
  induction xs with
  | nil =>
    intro ids h v hv
    simp only [collectStations] at h
    cases h
    simp at hv
  | cons st rest ih =>
    intro ids h v hv
    cases st with
    | obj skvs =>
      simp only [collectStations] at h
      by_cases hlab : jStrEq (jGetD skvs "label" .null) name
      · simp only [hlab, Bool.not_true, Bool.false_eq_true, if_false] at h
        by_cases hpref : jNumEq (jGetD skvs "prefecture_id" .null) pid
        · simp only [hpref, Bool.not_true, Bool.and_false,
            Bool.false_eq_true, if_false] at h
          cases hid : jIndex skvs "id" with
          | some w =>
            simp only [hid] at h
            cases hrec : collectStations (some pid) name rest with
            | ok more =>
              rw [hrec] at h
              simp only [exceptBind_ok, Except.ok.injEq] at h
              subst h
              rcases List.mem_cons.mp hv with hv1 | hv2
              · exact ⟨skvs, List.mem_cons_self _ _, hlab, hpref,
                  by rw [hid, hv1]⟩
              · obtain ⟨skvs', hm, h1, h2, h3⟩ := ih more hrec v hv2
                exact ⟨skvs', List.mem_cons_of_mem _ hm, h1, h2, h3⟩
            | error e =>
              rw [hrec] at h
              simp only [exceptBind_err] at h
              exact Except.noConfusion h
          | none => simp only [hid] at h; cases h
        · simp only [hpref, Bool.not_false, Bool.and_true] at h
          have : (decide (pid ≠ 0)) = true := by simp [hpid]
          rw [this] at h
          simp only [if_true] at h
          obtain ⟨skvs', hm, h1, h2, h3⟩ := ih ids h v hv
          exact ⟨skvs', List.mem_cons_of_mem _ hm, h1, h2, h3⟩
      · simp only [hlab] at h
        simp only [Bool.not_false, if_true] at h
        obtain ⟨skvs', hm, h1, h2, h3⟩ := ih ids h v hv
        exact ⟨skvs', List.mem_cons_of_mem _ hm, h1, h2, h3⟩
    | null => simp only [collectStations] at h; cases h
    | bool b => simp only [collectStations] at h; cases h
    | num n => simp only [collectStations] at h; cases h
    | str s => simp only [collectStations] at h; cases h
    | arr ys => simp only [collectStations] at h; cases h

theorem iterStations_sound (pid : Int) (hpid : pid ≠ 0) (name : String)
    (sv : JVal) (ids : List JVal)
    (h : iterStations (some pid) name sv = .ok ids) :
    ∀ v ∈ ids, ∃ skvs, JVal.obj skvs ∈ svList sv ∧
      jStrEq (jGetD skvs "label" .null) name = true ∧
      jNumEq (jGetD skvs "prefecture_id" .null) pid = true ∧
      jIndex skvs "id" = some v := by
  intro v hv
  cases sv with
  | arr xs => exact collectStations_sound pid hpid name xs ids h v hv
  | str s =>
    simp only [iterStations] at h
    split at h
    · cases h; simp at hv
    · cases h
  | obj kvs =>
    simp only [iterStations] at h
    split at h
    · cases h; simp at hv
    · cases h
  | null => simp only [iterStations] at h; cases h
  | bool b => simp only [iterStations] at h; cases h
  | num n => simp only [iterStations] at h; cases h

theorem resolveLoop_sound (lookup : String → PostOutcome) (pid : Int)
    (hpid : pid ≠ 0) :
    ∀ (names : List String) (ids : List JVal),
      resolveLoop lookup (some pid) names = .ok ids →
      ∀ v ∈ ids, ∃ (n : String) (body : List (String × JVal)) (raw : String)
          (skvs : List (String × JVal)),
        n ∈ names ∧
        lookup (String.mk (stripWs n.data)) = .returns 200 body raw ∧
        JVal.obj skvs ∈ stationsListOf body ∧
        jStrEq (jGetD skvs "label" .null) (String.mk (stripWs n.data)) = true ∧
        jNumEq (jGetD skvs "prefecture_id" .null) pid = true ∧
        jIndex skvs "id" = some v := by
  intro names
  induction names with
  | nil =>
    intro ids h v hv
    simp only [resolveLoop] at h
    cases h
    simp at hv
  | cons n rest ih =>
    intro ids h v hv
    simp only [resolveLoop] at h
    split at h
    · obtain ⟨n', body, raw, skvs, hm, rest'⟩ := ih ids h v hv
      exact ⟨n', body, raw, skvs, List.mem_cons_of_mem _ hm, rest'⟩
    · cases hlk : lookup (String.mk (stripWs n.data)) with
      | raises =>
        rw [hlk] at h
        obtain ⟨n', body, raw, skvs, hm, rest'⟩ := ih ids h v hv
        exact ⟨n', body, raw, skvs, List.mem_cons_of_mem _ hm, rest'⟩
      | returns status body raw =>
        rw [hlk] at h
        by_cases hst : status = 200
        · subst hst
          simp only [ne_eq, not_true_eq_false, if_false, reduceIte] at h
          cases hiter : iterStations (some pid) (String.mk (stripWs n.data))
              (jGetD body "stations" (.arr [])) with
          | ok ids1 =>
            rw [hiter] at h
            cases hrec : resolveLoop lookup (some pid) rest with
            | ok more =>
              rw [hrec] at h
              simp only [exceptBind_ok, Except.ok.injEq] at h
              subst h
              rcases List.mem_append.mp hv with hv1 | hv2
              · obtain ⟨skvs, hm, h1, h2, h3⟩ :=
                  iterStations_sound pid hpid _ _ ids1 hiter v hv1
                exact ⟨n, body, raw, skvs, List.mem_cons_self _ _, hlk,
                  hm, h1, h2, h3⟩
              · obtain ⟨n', body', raw', skvs', hm, rest'⟩ :=
                  ih more hrec v hv2
                exact ⟨n', body', raw', skvs',
                  List.mem_cons_of_mem _ hm, rest'⟩
            | error e =>
              rw [hrec] at h
              simp only [exceptBind_err] at h
              exact Except.noConfusion h
          | error e =>
            rw [hiter] at h
            simp only [exceptBind_err] at h
            exact Except.noConfusion h
        · simp only [ne_eq, hst, not_false_eq_true, if_true, reduceIte] at h
          obtain ⟨n', body', raw', skvs', hm, rest'⟩ := ih ids h v hv
          exact ⟨n', body', raw', skvs', List.mem_cons_of_mem _ hm, rest'⟩

theorem prefLookup_mem : ∀ (t : List (String × Int)) (s : String) (pid : Int),
    prefLookup t s = some pid → (s, pid) ∈ t := by
  intro t
  induction t with
  | nil => intro s pid h; exact Option.noConfusion h
  | cons kv rest ih =>
    intro s pid h
    obtain ⟨k, v⟩ := kv
    simp only [prefLookup] at h
    by_cases hk : k = s
    · rw [if_pos hk] at h
      cases h
      subst hk
      exact List.mem_cons_self _ _
    · rw [if_neg hk] at h
      exact List.mem_cons_of_mem _ (ih s pid h)

theorem pref_id_ne_zero (s : String) (pid : Int)
    (h : prefLookup PREFECTURE_IDS s = some pid) : pid ≠ 0 := by
  have hm := prefLookup_mem PREFECTURE_IDS s pid h
  have hall : ∀ kv ∈ PREFECTURE_IDS, kv.2 ≠ (0 : Int) := by decide
  exact hall _ hm

/-- C9: station resolution keeps only exact-label, prefecture-matching
stations.  (1) Soundness: whenever the given prefecture maps to an id in
`PREFECTURE_IDS`, every identifier returned by `resolve_station_ids` comes
from a station object, in the stations list of a 200 lookup response for
one of the requested (stripped) names, whose `label` equals that name
exactly and whose `prefecture_id` equals the prefecture's id.
(2) Concretely, requesting `渋谷` in `東京都` against a response containing
the partial-name collision `高座渋谷` and a same-name station of another
prefecture returns exactly the Tokyo `渋谷` station id. -/
theorem station_resolution_exact_match :
    (∀ (lookup : String → PostOutcome) (names : List String)
        (pref : String) (pid : Int) (ids : List JVal),
      prefLookup PREFECTURE_IDS pref = some pid →
      resolve_station_ids lookup names (some pref) = .ok ids →
      ∀ v ∈ ids, ∃ (n : String) (body : List (String × JVal)) (raw : String)
          (skvs : List (String × JVal)),
        n ∈ names ∧
        lookup (String.mk (stripWs n.data)) = .returns 200 body raw ∧
        JVal.obj skvs ∈ stationsListOf body ∧
        jStrEq (jGetD skvs "label" .null) (String.mk (stripWs n.data)) = true ∧
        jNumEq (jGetD skvs "prefecture_id" .null) pid = true ∧
        jIndex skvs "id" = some v) ∧
    resolve_station_ids shibuyaLookup ["渋谷"] (some "東京都") =
      .ok [.num 202] := by
  constructor
  · intro lookup names pref pid ids h1 h2 v hv
    have hpid : pid ≠ 0 := pref_id_ne_zero pref pid h1
    have hpref : pref ≠ "" := by
      intro he
      subst he
      rw [show prefLookup PREFECTURE_IDS "" = none from rfl] at h1
      exact Option.noConfusion h1
    simp only [resolve_station_ids] at h2
    rw [if_pos hpref, h1] at h2
    exact resolveLoop_sound lookup pid hpid names ids h2 v hv
  · rfl

/-- Witness for C9: the soundness statement applied to the concrete
`渋谷`/`東京都` lookup, exhibiting the matching station object. -/
theorem station_resolution_exact_match_witness :
    ∃ (n : String) (body : List (String × JVal)) (raw : String)
        (skvs : List (String × JVal)),
      n ∈ ["渋谷"] ∧
      shibuyaLookup (String.mk (stripWs n.data)) = .returns 200 body raw ∧
      JVal.obj skvs ∈ stationsListOf body ∧
      jStrEq (jGetD skvs "label" .null) (String.mk (stripWs n.data)) = true ∧
      jNumEq (jGetD skvs "prefecture_id" .null) 13 = true ∧
      jIndex skvs "id" = some (.num 202) :=
  station_resolution_exact_match.1 shibuyaLookup ["渋谷"] "東京都" 13
    [.num 202] rfl rfl (.num 202) (List.mem_singleton.mpr rfl)

/-- C7: rate-limit retry.  (1) A 429 response carrying a `retry_after`
value `t` produces exactly one sleep of `t` and exactly one retry, with no
exception escaping — whatever the second attempt (e.g. another 429) does;
the failure of the retry is only logged.  (2) Any non-429 HTTP failure is
logged without retrying and without raising.  (3) A raising POST
(connection error) likewise is logged and the run continues. -/
theorem notify_rate_limit_retry :
    (∀ (t : Int) (second : HttpPostOutcome),
      post_with_retry (.resp 429 (.ok (some t))) second =
        ([.post 1, .sleepFor t, .post 2], false)) ∧
    (∀ (status : Nat) (ra : Except Unit (Option Int))
        (second : HttpPostOutcome),
      400 ≤ status → status ≠ 429 →
      post_with_retry (.resp status ra) second = ([.post 1], false)) ∧
    (∀ second : HttpPostOutcome,
      post_with_retry .raises second = ([.post 1], false)) := by
  refine ⟨fun t second => rfl, fun status ra second h1 h2 => ?_,
    fun second => rfl⟩
  simp only [post_with_retry]
  rw [if_neg (by omega), if_neg h2]

/-- Witness for C7: the spec's `{"retry_after": 2}` double-429 scenario and
a concrete 500 failure. -/
theorem notify_rate_limit_retry_witness :
    post_with_retry (.resp 429 (.ok (some 2))) (.resp 429 (.ok (some 2))) =
      ([.post 1, .sleepFor 2, .post 2], false) ∧
    post_with_retry (.resp 500 (.ok none)) .raises = ([.post 1], false) :=
  ⟨notify_rate_limit_retry.1 2 _,
   notify_rate_limit_retry.2.1 500 (.ok none) .raises (by norm_num)
     (by norm_num)⟩

/-! ## Lemmas about the run loop -/
theorem pairMem_iff (s : List (String × Int)) (p : String × Int) :
    pairMem s p = true ↔ p ∈ s := by
  simp only [pairMem, List.any_eq_true, Bool.and_eq_true, decide_eq_true_eq]
  constructor
  · rintro ⟨q, hq, h1, h2⟩
    have : q = p := Prod.ext h1 h2
    subst this
    exact hq
  · intro hp
    exact ⟨p, hp, rfl, rfl⟩

theorem runCustomer_countP (env : RunEnv) (idx : Nat) (c : Customer)
    (excl : List (String × Int)) (p : Effect → Bool)
    (hp1 : ∀ i, p (.searchCall i) = false) (hp2 : p .errorNotify = false)
    (hp3 : ∀ i, p (.enrichCall i) = false)
    (hp4 : ∀ n ps, p (.writePending n ps) = false)
    (hp5 : ∀ i n ps t, p (.notifyBatch i n ps t) = false) :
    (runCustomer env idx c excl).1.countP p = 0 := by
  unfold runCustomer
  cases env.searchResult idx with
  | error err =>
    by_cases hw : env.webhookConfigured <;>
      simp [hw, List.countP_append, List.countP_cons, hp1, hp2]
  | ok props =>
    by_cases hemp :
        (props.filter (fun q => !pairMem excl (c.name, q.room_id))).isEmpty
    · simp [hemp, List.countP_cons, hp1]
    · by_cases hw : env.webhookConfigured <;>
        simp [hemp, hw, List.countP_append, List.countP_cons,
          hp1, hp2, hp3, hp4, hp5]

theorem runLoop_countP (env : RunEnv) (p : Effect → Bool)
    (hp1 : ∀ i, p (.searchCall i) = false) (hp2 : p .errorNotify = false)
    (hp3 : ∀ i, p (.enrichCall i) = false)
    (hp4 : ∀ n ps, p (.writePending n ps) = false)
    (hp5 : ∀ i n ps t, p (.notifyBatch i n ps t) = false) :
    ∀ (cs : List Customer) (idx : Nat) (excl : List (String × Int)),
      (runLoop env idx cs excl).countP p = 0 := by
  intro cs
  induction cs with
  | nil => intro idx excl; rfl
  | cons c rest ih =>
    intro idx excl
    simp only [runLoop, List.countP_append,
      runCustomer_countP env idx c excl p hp1 hp2 hp3 hp4 hp5, ih]

theorem runCustomer_searchCalls (env : RunEnv) (idx : Nat) (c : Customer)
    (excl : List (String × Int)) :
    (runCustomer env idx c excl).1.countP isSearchCallE = 1 := by
  unfold runCustomer
  cases env.searchResult idx with
  | error err =>
    by_cases hw : env.webhookConfigured <;>
      simp [hw, List.countP_append, List.countP_cons, isSearchCallE]
  | ok props =>
    by_cases hemp :
        (props.filter (fun q => !pairMem excl (c.name, q.room_id))).isEmpty
    · simp [hemp, List.countP_cons, isSearchCallE]
    · by_cases hw : env.webhookConfigured <;>
        simp [hemp, hw, List.countP_append, List.countP_cons, isSearchCallE]

theorem runLoop_searchCalls (env : RunEnv) :
    ∀ (cs : List Customer) (idx : Nat) (excl : List (String × Int)),
      (runLoop env idx cs excl).countP isSearchCallE = cs.length := by
  intro cs
  induction cs with
  | nil => intro idx excl; rfl
  | cons c rest ih =>
    intro idx excl
    simp only [runLoop, List.countP_append, runCustomer_searchCalls, ih,
      List.length_cons]
    omega

/-- C6: the browser resource is released exactly once per acquisition on
every exit path.  (1) In every run of `main` the number of driver-quit
events equals the number of driver launches, at most one driver is ever
launched, and `close()` is reached at most once.  (2) Whenever
`ItandiSession.login` raises, the driver handle has been reset to `None`
and every launched driver has been quit before the exception propagates. -/
theorem session_released_exactly_once :
    (∀ env : RunEnv,
      (main_run env).1.countP isQuitE = (main_run env).1.countP isLaunchE ∧
      (main_run env).1.countP isLaunchE ≤ 1 ∧
      (main_run env).1.countP isCloseE ≤ 1) ∧
    (∀ (o : LoginOutcome) (e : PyExcKind),
      (loginModel o).outcome = .error e →
      (loginModel o).driver = none ∧
      (loginModel o).effects.countP isQuitE =
        (loginModel o).effects.countP isLaunchE) := by
  constructor
  · intro env
    have hq := runLoop_countP env isQuitE (fun i => rfl) rfl (fun i => rfl)
      (fun n ps => rfl) (fun i n ps t => rfl)
    have hl := runLoop_countP env isLaunchE (fun i => rfl) rfl (fun i => rfl)
      (fun n ps => rfl) (fun i n ps t => rfl)
    have hc := runLoop_countP env isCloseE (fun i => rfl) rfl (fun i => rfl)
      (fun n ps => rfl) (fun i n ps t => rfl)
    unfold main_run
    cases hsb : env.sheetsInitOk with
    | false => simp [isQuitE, isLaunchE, isCloseE, List.countP_cons]
    | true =>
      cases hcl : env.criteriaLoad with
      | error err => simp [isQuitE, isLaunchE, isCloseE, List.countP_cons]
      | ok customers =>
        by_cases hce : customers.isEmpty
        · simp [hce]
        · simp only [hce, Bool.not_true, Bool.false_eq_true, if_false,
            Bool.not_false, if_true]
          cases hlo : env.loginOutcome with
          | createRaises =>
            simp [loginModel, List.countP_cons]
          | doLoginRaises isAuth =>
            cases isAuth <;>
              by_cases hw : env.webhookConfigured <;>
                simp [loginModel, hw, List.countP_append, List.countP_cons,
                  isQuitE, isLaunchE, isCloseE]
          | success =>
            simp [loginModel, List.countP_append, List.countP_cons,
              isQuitE, isLaunchE, isCloseE, hq, hl, hc]
  · intro o e h
    cases o with
    | createRaises => exact ⟨rfl, rfl⟩
    | doLoginRaises isAuth => cases isAuth <;> exact ⟨rfl, rfl⟩
    | success => exact Except.noConfusion h

/-- Witness for C6: the auth-failure run quits the one launched driver
exactly once; the login model reports the reset handle. -/
theorem session_released_exactly_once_witness :
    (main_run envAuthFail).1.countP isQuitE =
      (main_run envAuthFail).1.countP isLaunchE ∧
    (loginModel (.doLoginRaises true)).driver = none :=
  ⟨(session_released_exactly_once.1 envAuthFail).1,
   (session_released_exactly_once.2 (.doLoginRaises true) .itandiAuth rfl).1⟩

/-- C1 (amended): a 401 on any search-page request does surface as
`ItandiAuthError` out of `search_properties` — but in `main` it is caught
by the per-customer `except Exception` clause (it is not an
`ItandiSearchError`, and `ItandiAuthError` subclasses `Exception`), an
error notification is sent, and the run *continues*: whenever login
succeeded, the run finishes normally and every customer is searched,
regardless of any per-customer search outcome.  Only a login-time
`ItandiAuthError` aborts the run. -/
theorem search_auth_error_caught_per_customer :
    (∀ (oracle : Nat → PostOutcome) (body : List (String × JVal))
        (raw : String),
      oracle 1 = .returns 401 body raw →
      search_properties_pages oracle = .error .itandiAuth) ∧
    (∀ (env : RunEnv) (customers : List Customer),
      env.sheetsInitOk = true →
      env.criteriaLoad = .ok customers →
      env.loginOutcome = .success →
      (main_run env).2 = .normal ∧
      (main_run env).1.countP isSearchCallE = customers.length) := by
  constructor
  · intro oracle body raw h
    show searchPagesFrom oracle 1 10 = _
    rw [show (10 : Nat) = 9 + 1 from rfl, searchPagesFrom_succ, h]
    simp
  · intro env customers hsb hcl hlo
    unfold main_run
    rw [hsb, hcl, hlo]
    by_cases hce : customers.isEmpty
    · have : customers = [] := List.isEmpty_iff.mp hce
      subst this
      simp
    · simp [hce, loginModel, List.countP_append, List.countP_cons,
        isSearchCallE, runLoop_searchCalls]

/-- Counterexample for C1: customer A's search raises `ItandiAuthError`
(session invalid, HTTP 401), yet the run does *not* abort: it completes
normally and customer B is still searched. -/
theorem auth_error_in_search_does_not_abort_run :
    envAuthSearch.searchResult 0 = .error .itandiAuth ∧
    (main_run envAuthSearch).2 = .normal ∧
    Effect.searchCall 1 ∈ (main_run envAuthSearch).1 := by
  refine ⟨rfl, rfl, ?_⟩
  decide

/-- Witness for C1 (amended): the concrete 401 oracle and two-customer
environment. -/
theorem search_auth_error_caught_per_customer_witness :
    search_properties_pages oracle401 = .error .itandiAuth ∧
    (main_run envAuthSearch).2 = .normal ∧
    (main_run envAuthSearch).1.countP isSearchCallE = 2 :=
  ⟨search_auth_error_caught_per_customer.1 oracle401 [] "" rfl,
   (search_auth_error_caught_per_customer.2 envAuthSearch
     [⟨"A", none⟩, ⟨"B", none⟩] rfl rfl rfl).1,
   (search_auth_error_caught_per_customer.2 envAuthSearch
     [⟨"A", none⟩, ⟨"B", none⟩] rfl rfl rfl).2⟩

theorem notifiedPairs_append (t1 t2 : List Effect) :
    notifiedPairs (t1 ++ t2) = notifiedPairs t1 ++ notifiedPairs t2 := by
  induction t1 with
  | nil => rfl
  | cons e rest ih => cases e <;> simp [notifiedPairs, ih]

theorem pendingPairs_append (t1 t2 : List Effect) :
    pendingPairs (t1 ++ t2) = pendingPairs t1 ++ pendingPairs t2 := by
  induction t1 with
  | nil => rfl
  | cons e rest ih => cases e <;> simp [pendingPairs, ih]

theorem notifyBatches_append (t1 t2 : List Effect) :
    notifyBatches (t1 ++ t2) = notifyBatches t1 ++ notifyBatches t2 := by
  induction t1 with
  | nil => rfl
  | cons e rest ih => cases e <;> simp [notifyBatches, ih]

theorem mem_notifiedPairs_of_batch :
    ∀ (tr : List Effect) (b : String × List Property) (q : String × Int),
      b ∈ notifyBatches tr → q ∈ batchPairs b → q ∈ notifiedPairs tr := by
  intro tr
  induction tr with
  | nil => intro b q hb _; simp [notifyBatches] at hb
  | cons e rest ih =>
    intro b q hb hq
    cases e with
    | notifyBatch i name ps t =>
      simp only [notifyBatches, List.mem_cons] at hb
      rcases hb with hb | hb
      · subst hb
        simp only [notifiedPairs, List.mem_append]
        exact Or.inl hq
      · simp only [notifiedPairs, List.mem_append]
        exact Or.inr (ih b q hb hq)
    | driverLaunch => exact ih b q hb hq
    | driverQuit => exact ih b q hb hq
    | sessionClose => exact ih b q hb hq
    | searchCall i => exact ih b q hb hq
    | errorNotify => exact ih b q hb hq
    | enrichCall i => exact ih b q hb hq
    | writePending n ps =>
      simp only [notifyBatches] at hb
      simp only [notifiedPairs]
      exact ih b q hb hq
    | seenAppend entries => exact ih b q hb hq
    | fatalExit => exact ih b q hb hq

theorem runCustomer_new_pairs (env : RunEnv) (idx : Nat) (c : Customer)
    (excl : List (String × Int)) (q : String × Int)
    (h : q ∈ notifiedPairs (runCustomer env idx c excl).1 ∨
         q ∈ pendingPairs (runCustomer env idx c excl).1) :
    pairMem excl q = false ∧ q ∈ (runCustomer env idx c excl).2 := by
  have key : ∀ ps : List Property,
      q ∈ (ps.filter (fun r => !pairMem excl (c.name, r.room_id))).map
        (fun p => (c.name, p.room_id)) →
      pairMem excl q = false := by
    intro ps hmem
    obtain ⟨r, hr, heq⟩ := List.mem_map.mp hmem
    have hfil := List.of_mem_filter hr
    rw [Bool.not_eq_true'] at hfil
    rw [← heq]
    exact hfil
  unfold runCustomer at h ⊢
  cases hs : env.searchResult idx with
  | error err =>
    rw [hs] at h
    by_cases hw : env.webhookConfigured <;>
      simp [hw, notifiedPairs, pendingPairs] at h
  | ok props =>
    rw [hs] at h
    by_cases hemp :
        (props.filter (fun r => !pairMem excl (c.name, r.room_id))).isEmpty
    · simp [hemp, notifiedPairs, pendingPairs] at h
    · by_cases hw : env.webhookConfigured
      · simp only [hemp, hw, Bool.false_eq_true, if_false, if_true,
          List.cons_append, List.nil_append, List.append_nil,
          notifiedPairs, pendingPairs, List.mem_append,
          List.mem_nil_iff, or_false, false_or] at h
        rcases h with h | h <;>
          exact ⟨key props h, by
            simp only [hemp, Bool.false_eq_true, if_false]
            exact List.mem_append_right _ h⟩
      · simp only [hemp, hw, Bool.false_eq_true, if_false,
          List.cons_append, List.nil_append, List.append_nil,
          notifiedPairs, pendingPairs, List.mem_append,
          List.mem_nil_iff, or_false, false_or] at h
        exact ⟨key props h, by
          simp only [hemp, Bool.false_eq_true, if_false]
          exact List.mem_append_right _ h⟩

theorem runCustomer_excl_mono (env : RunEnv) (idx : Nat) (c : Customer)
    (excl : List (String × Int)) (q : String × Int) (h : q ∈ excl) :
    q ∈ (runCustomer env idx c excl).2 := by
  unfold runCustomer
  cases env.searchResult idx with
  | error err => exact h
  | ok props =>
    by_cases hemp :
        (props.filter (fun r => !pairMem excl (c.name, r.room_id))).isEmpty
    · simp [hemp]
      exact h
    · simp [hemp]
      exact Or.inl h

theorem runCustomer_batchPairs (env : RunEnv) (idx : Nat) (c : Customer)
    (excl : List (String × Int)) (b : String × List Property)
    (hb : b ∈ notifyBatches (runCustomer env idx c excl).1) :
    ∀ q ∈ batchPairs b, q ∈ (runCustomer env idx c excl).2 := by
  intro q hq
  have hmem := mem_notifiedPairs_of_batch _ b q hb hq
  exact (runCustomer_new_pairs env idx c excl q (Or.inl hmem)).2

theorem runCustomer_batches_short (env : RunEnv) (idx : Nat) (c : Customer)
    (excl : List (String × Int)) :
    notifyBatches (runCustomer env idx c excl).1 = [] ∨
    ∃ b, notifyBatches (runCustomer env idx c excl).1 = [b] := by
  unfold runCustomer
  cases env.searchResult idx with
  | error err =>
    by_cases hw : env.webhookConfigured <;>
      simp [hw, notifyBatches]
  | ok props =>
    by_cases hemp :
        (props.filter (fun r => !pairMem excl (c.name, r.room_id))).isEmpty
    · simp [hemp, notifyBatches]
    · by_cases hw : env.webhookConfigured <;>
        simp [hemp, hw, notifyBatches]

theorem runLoop_excl_untouched (env : RunEnv) (q : String × Int) :
    ∀ (cs : List Customer) (idx : Nat) (excl : List (String × Int)),
      q ∈ excl →
      q ∉ notifiedPairs (runLoop env idx cs excl) ∧
      q ∉ pendingPairs (runLoop env idx cs excl) := by
  intro cs
  induction cs with
  | nil => intro idx excl _; simp [runLoop, notifiedPairs, pendingPairs]
  | cons c rest ih =>
    intro idx excl hq
    have hstep := runCustomer_excl_mono env idx c excl q hq
    have hrest := ih (idx + 1) (runCustomer env idx c excl).2 hstep
    constructor
    · simp only [runLoop, notifiedPairs_append, List.mem_append]
      rintro (h | h)
      · have := (runCustomer_new_pairs env idx c excl q (Or.inl h)).1
        rw [(pairMem_iff excl q).mpr hq] at this
        exact Bool.noConfusion this
      · exact hrest.1 h
    · simp only [runLoop, pendingPairs_append, List.mem_append]
      rintro (h | h)
      · have := (runCustomer_new_pairs env idx c excl q (Or.inr h)).1
        rw [(pairMem_iff excl q).mpr hq] at this
        exact Bool.noConfusion this
      · exact hrest.2 h

theorem runLoop_batches_disjoint (env : RunEnv) :
    ∀ (cs : List Customer) (idx : Nat) (excl : List (String × Int)),
      List.Pairwise (fun b1 b2 => ∀ q ∈ batchPairs b1, q ∉ batchPairs b2)
        (notifyBatches (runLoop env idx cs excl)) := by
  intro cs
  induction cs with
  | nil => intro idx excl; simp [runLoop, notifyBatches]
  | cons c rest ih =>
    intro idx excl
    rw [runLoop, notifyBatches_append]
    rw [List.pairwise_append]
    refine ⟨?_, ih _ _, ?_⟩
    · rcases runCustomer_batches_short env idx c excl with h | ⟨b, h⟩ <;>
        simp [h]
    · intro b1 hb1 b2 hb2 q hq1 hq2
      have hq' := runCustomer_batchPairs env idx c excl b1 hb1 q hq1
      have hnot := (runLoop_excl_untouched env q rest (idx + 1)
        (runCustomer env idx c excl).2 hq').1
      exact hnot (mem_notifiedPairs_of_batch _ b2 q hb2 hq2)

/-- C2 (amended): (1) any `(customer_name, room_id)` pair present in the
exclude set loaded at run start (seen ∪ pending; `FORCE_NOTIFY` off) is
excluded from every customer's `new_properties`, hence neither notified nor
written to the pending sheet anywhere in the run.  (2) Notified pairs are
added to the exclude set after each customer's batch, so the notification
batches of one run are pairwise disjoint: a pair notified in one batch is
never notified in a *different* batch.  However, a single batch may
contain the same pair twice — duplicate listings within one customer's
search results are each notified (see the counterexample). -/
theorem dedup_invariant :
    (∀ (env : RunEnv) (pair : String × Int),
      env.forceNotify = false →
      pair ∈ initialExclude env →
      pair ∉ notifiedPairs (main_run env).1 ∧
      pair ∉ pendingPairs (main_run env).1) ∧
    (∀ env : RunEnv,
      List.Pairwise (fun b1 b2 => ∀ q ∈ batchPairs b1, q ∉ batchPairs b2)
        (notifyBatches (main_run env).1)) := by
  constructor
  · intro env pair hforce hmem
    unfold main_run
    cases hsb : env.sheetsInitOk with
    | false => simp [notifiedPairs, pendingPairs]
    | true =>
      cases hcl : env.criteriaLoad with
      | error err => simp [notifiedPairs, pendingPairs]
      | ok customers =>
        by_cases hce : customers.isEmpty
        · simp [hce, notifiedPairs, pendingPairs]
        · cases hlo : env.loginOutcome with
          | createRaises =>
            simp [hce, loginModel, notifiedPairs, pendingPairs]
          | doLoginRaises isAuth =>
            cases isAuth <;> by_cases hw : env.webhookConfigured <;>
              simp [hce, loginModel, hw, notifiedPairs, pendingPairs,
                notifiedPairs_append, pendingPairs_append]
          | success =>
            have hout := runLoop_excl_untouched env pair customers 0
              (initialExclude env) hmem
            simp only [hce, Bool.false_eq_true, if_false, loginModel,
              List.cons_append, List.nil_append, Option.isSome_some,
              if_true, notifiedPairs_append, pendingPairs_append,
              notifiedPairs, pendingPairs, List.mem_append,
              List.mem_nil_iff, or_false, false_or, List.append_nil]
            exact ⟨hout.1, hout.2⟩
  · intro env
    unfold main_run
    cases hsb : env.sheetsInitOk with
    | false => simp [notifyBatches]
    | true =>
      cases hcl : env.criteriaLoad with
      | error err => simp [notifyBatches]
      | ok customers =>
        by_cases hce : customers.isEmpty
        · simp [hce, notifyBatches]
        · cases hlo : env.loginOutcome with
          | createRaises =>
            simp [hce, loginModel, notifyBatches]
          | doLoginRaises isAuth =>
            cases isAuth <;> by_cases hw : env.webhookConfigured <;>
              simp [hce, loginModel, hw, notifyBatches, notifyBatches_append]
          | success =>
            have hdisj := runLoop_batches_disjoint env customers 0
              (initialExclude env)
            simp only [hce, Bool.false_eq_true, if_false, loginModel,
              List.cons_append, List.nil_append, Option.isSome_some,
              if_true, notifyBatches_append, notifyBatches,
              List.append_nil]
            exact hdisj

/-- Counterexample for C2: when one customer's search results contain the
same `(customer_name, room_id)` pair twice, both copies pass the exclude
filter (the set only grows *after* the batch) and the pair is notified
twice within a single run — the at-most-once part of the claim fails. -/
theorem duplicate_listing_notified_twice :
    (notifiedPairs (main_run envDup).1).countP
      (fun r => decide (r = ("A", (5 : Int)))) = 2 ∧
    ¬ ∀ q : String × Int,
        (notifiedPairs (main_run envDup).1).countP
          (fun r => decide (r = q)) ≤ 1 := by
  refine ⟨by decide, fun hall => absurd (hall ("A", 5)) (by decide)⟩

/-- Witness for C2 (amended): a pair in the loaded seen set is neither
notified nor written to the pending sheet. -/
theorem dedup_invariant_witness :
    ("A", (5 : Int)) ∈ initialExclude envSeen ∧
    ("A", (5 : Int)) ∉ notifiedPairs (main_run envSeen).1 ∧
    ("A", (5 : Int)) ∉ pendingPairs (main_run envSeen).1 :=
  ⟨by decide,
   (dedup_invariant.1 envSeen ("A", 5) rfl (by decide)).1,
   (dedup_invariant.1 envSeen ("A", 5) rfl (by decide)).2⟩

/-- C8 (amended): in the 2-buildings/3-rooms scenario with an empty seen
set, the parser produces exactly 3 `Property` records from the single page
request, the run completes normally, exactly 3 per-listing webhook messages
are posted (existing thread, no GAS approval URL configured), and exactly 3
rows are appended to the *pending* sheet by `write_pending_properties` —
while the seen sheet is not written at all during the run
(`mark_properties_seen` has no caller in `main`). -/
theorem scenario_three_listings :
    Except.map List.length (parse_search_response scenarioBody) = .ok 3 ∧
    Except.map (fun r => r.2) (search_properties_pages scenarioOracle) =
      .ok 1 ∧
    (main_run envScenario).2 = .normal ∧
    listingMsgsFromTrace "" (.ok none) (main_run envScenario).1 = 3 ∧
    pendingRowsFromTrace "2026-02-01 09:00:00" (main_run envScenario).1 = 3 ∧
    seenRowsFromTrace (main_run envScenario).1 = 0 :=
  ⟨rfl, rfl, rfl, rfl, rfl, rfl⟩

/-- Counterexample for C8: the scenario run appends 0 (not 3) rows to the
seen-state sheet — the 3 rows are persisted to the pending-approval sheet
instead, and no `mark_properties_seen` append ever happens in `main`. -/
theorem scenario_no_seen_entries_written :
    seenRowsFromTrace (main_run envScenario).1 = 0 ∧
    pendingRowsFromTrace "2026-02-01 09:00:00" (main_run envScenario).1 = 3 ∧
    ¬ (seenRowsFromTrace (main_run envScenario).1 = 3) :=
  ⟨rfl, rfl, by decide⟩
